import Mathlib

/-
  Verification of the EmberGL tile-based software rasterizer examples against
  their natural-language specification.

  The engine core (dispatch_pso / commit / binning / rasterizer / draw_rect)
  is not among the provided source files; only the example clients are.
  Definitions for the engine are therefore modelled from the specification
  (marked `Modelled from the spec:`), while the pixel shaders of the examples
  (ps_color of 03_MultiDispatch, ps_gauge_needle of 05_Speedometer) are
  embedded directly from their source.  Machine floats are embedded as exact
  rationals.
-/

namespace EmberGL

/-- Floating-point RGBA color (`color_rgbaf` of the source), with each float
channel embedded as an exact rational. -/
structure color_rgbaf where
  r : ℚ
  g : ℚ
  b : ℚ
  a : ℚ
deriving DecidableEq, Repr

/-- A 16-bit pixel in `pixfmt_r5g5b5a1` format: 5-bit channels and a 1-bit
alpha, embedded as natural-number channel values. -/
structure pixel_r5g5b5a1 where
  r : ℕ
  g : ℕ
  b : ℕ
  a : ℕ
deriving DecidableEq, Repr

/-- Barycentric interpolation of three 2D vectors, as written in the pixel
shaders: `v0*bc.x + v1*bc.y + v2*bc.z` componentwise. -/
def vec2_bary (u0 u1 u2 : ℚ × ℚ) (bc : ℚ × ℚ × ℚ) : ℚ × ℚ :=
  (u0.1 * bc.1 + u1.1 * bc.2.1 + u2.1 * bc.2.2,
   u0.2 * bc.1 + u1.2 * bc.2.1 + u2.2 * bc.2.2)

/-- Post-transform vertex consumed by `ps_color` (03_MultiDispatch): only a
4D clip-space position, no further attributes. -/
structure ps_color_psin where
  pos : ℚ × ℚ × ℚ × ℚ
deriving DecidableEq

/-- The `ps_color` pixel shader of 03_MultiDispatch: its only state is the
`color` field. -/
structure ps_color where
  color : color_rgbaf
deriving DecidableEq

/-- `ps_color::exec` of 03_MultiDispatch: ignores the three input vertices,
the barycentric coordinates and the primitive index, and exports the shader's
`color` field to render target 0. -/
def ps_color.exec (ps : ps_color) (_v0 _v1 _v2 : ps_color_psin)
    (_bc : ℚ × ℚ × ℚ) (_prim_idx : ℕ) : color_rgbaf :=
  ps.color

/-- Post-transform vertex consumed by `ps_gauge_needle` (05_Speedometer):
2D position and 2D texture coordinates. -/
structure ps_gauge_needle_psin where
  pos : ℚ × ℚ
  uv : ℚ × ℚ
deriving DecidableEq

/-- `ps_gauge_needle::exec` of 05_Speedometer.  The global needle sampler and
texture (`s_smp_gauge_needle.sample(smp, s_tex_gauge_needle, uv)`) are
embedded as the function argument `sample`.  For primitive index below 2 the
shader interpolates the UVs, samples the needle texture, and exports the
sample only when its 1-bit alpha is set; otherwise it makes no `export_rt0`
call, which is embedded as the `none` result. -/
def ps_gauge_needle_exec (sample : ℚ × ℚ → pixel_r5g5b5a1)
    (v0 v1 v2 : ps_gauge_needle_psin) (bc : ℚ × ℚ × ℚ) (prim_idx : ℕ) :
    Option pixel_r5g5b5a1 :=
  if prim_idx < 2 then
    let uv := vec2_bary v0.uv v1.uv v2.uv bc
    let smp := sample uv
    if smp.a ≠ 0 then some smp else none
  else none

/-- Effect of a pixel-shader invocation on the destination render-target
pixel: when the shader exported a value the pixel is replaced, and when it
made no export call the pixel keeps its prior value. -/
def apply_pixel_export (prior : pixel_r5g5b5a1)
    (out : Option pixel_r5g5b5a1) : pixel_r5g5b5a1 :=
  match out with
  | some p => p
  | none => prior

/-- Modelled from the spec: the configurable direction of the depth
comparison ("configurable comparison direction to support standard or
reversed depth"); the engine source is not under src/. -/
inductive depth_compare
  | less
  | greater
deriving DecidableEq, Repr

/-- Modelled from the spec: the per-render-target blend function ("apply the
configured blend function (e.g. replace, additive)"); the engine source is
not under src/. -/
inductive blend_func
  | blendfunc_replace
  | blendfunc_add
deriving DecidableEq, Repr

/-- Componentwise addition of two RGBA colors, used by the additive blend. -/
def color_add (c1 c2 : color_rgbaf) : color_rgbaf :=
  ⟨c1.r + c2.r, c1.g + c2.g, c1.b + c2.b, c1.a + c2.a⟩

/-- Modelled from the spec: applying the configured blend function of the
render state to a shader output `src` and the current render-target pixel
`dst`; the engine source is not under src/. -/
def apply_blend (bf : blend_func) (src dst : color_rgbaf) : color_rgbaf :=
  match bf with
  | .blendfunc_replace => src
  | .blendfunc_add => color_add src dst

/-- Modelled from the spec: the part of the render state that drives the
per-fragment depth gate and blend — comparison direction, blend function and
the debug flag `debug_disable_pixel_depth_test` set by
`rstate_cluster_overdraw` in the 07_ClusterCulling example; the engine source
is not under src/. -/
structure render_state where
  cmp : depth_compare
  blend : blend_func
  debug_disable_pixel_depth_test : Bool
deriving DecidableEq, Repr

/-- State of one pixel of a tile: intermediate render-target color and depth
buffer value. -/
structure pixel_state where
  color : color_rgbaf
  depth : ℚ
deriving DecidableEq

/-- Modelled from the spec: the depth test comparing the fragment's
interpolated depth against the current depth-buffer value in the configured
direction; the engine source is not under src/. -/
def depth_test (cmp : depth_compare) (frag_depth buf_depth : ℚ) : Bool :=
  match cmp with
  | .less => decide (frag_depth < buf_depth)
  | .greater => decide (buf_depth < frag_depth)

/-- Modelled from the spec: whether the bound pixel shader is invoked for a
covered fragment — on depth-test pass, or unconditionally when the debug flag
`debug_disable_pixel_depth_test` is set; the engine source is not under
src/. -/
def shader_runs (rs : render_state) (frag_depth buf_depth : ℚ) : Bool :=
  rs.debug_disable_pixel_depth_test || depth_test rs.cmp frag_depth buf_depth

/-- One covered fragment at a pixel: its interpolated depth and the color the
bound pixel shader would produce there. -/
structure fragment where
  depth : ℚ
  shader_color : color_rgbaf
deriving DecidableEq

/-- Modelled from the spec: processing one covered fragment at one pixel —
the depth test gates the pixel shader (unless the debug flag is set), a
passing or debug-forced invocation blends the shader color into the tile's
render target, and the depth buffer is written exactly on depth-test pass
regardless of the debug flag; the engine source is not under src/. -/
def process_fragment (rs : render_state) (f : fragment) (p : pixel_state) :
    pixel_state :=
  { color :=
      if shader_runs rs f.depth p.depth then
        apply_blend rs.blend f.shader_color p.color
      else p.color
    depth := if depth_test rs.cmp f.depth p.depth then f.depth else p.depth }

/-- Modelled from the spec: the Hi-Z summary is a low-resolution
representation of the depth buffer — here the conservative fold of the depth
values it summarizes; the engine source is not under src/. -/
def hiz_summary (depths : List ℚ) : ℚ :=
  depths.foldr max 0

/-- One triangle as the rasterizer sees it over a tile: which pixels it
covers, and the interpolated depth and pixel-shader color at each covered
pixel. -/
structure tri_raster where
  covers : ℕ × ℕ → Bool
  depth_at : ℕ × ℕ → ℚ
  color_at : ℕ × ℕ → color_rgbaf

/-- Modelled from the spec: rasterizing one triangle into a tile — every
covered pixel is processed as a fragment, uncovered pixels are untouched; the
engine source is not under src/. -/
def raster_triangle (rs : render_state) (t : tri_raster)
    (tile : ℕ × ℕ → pixel_state) : ℕ × ℕ → pixel_state :=
  fun xy =>
    if t.covers xy then process_fragment rs ⟨t.depth_at xy, t.color_at xy⟩ (tile xy)
    else tile xy

/-- Modelled from the spec: the commit-time rasterization of a tile's bound
triangles, in dispatch order; the engine source is not under src/. -/
def commit_tile (rs : render_state) (ts : List tri_raster)
    (tile : ℕ × ℕ → pixel_state) : ℕ × ℕ → pixel_state :=
  ts.foldl (fun tl t => raster_triangle rs t tl) tile

/-- Modelled from the spec: the culling information `dispatch_pso` evaluates
for one cluster — the results of the conservative bounding-volume-vs-frustum
test, the visibility-cone test, the Hi-Z occlusion test, and which tiles the
cluster's screen-space bounds overlap; the engine source is not under
src/. -/
structure cluster_cull_info where
  outside_frustum : Bool
  vcone_excluded : Bool
  hiz_occluded : Bool
  overlaps_tile : ℕ → Bool

/-- Modelled from the spec: a cluster survives culling when none of the three
rejection tests fires; the engine source is not under src/. -/
def cluster_survives (c : cluster_cull_info) : Bool :=
  !c.outside_frustum && !c.vcone_excluded && !c.hiz_occluded

/-- Modelled from the spec: binning one cluster — a surviving cluster is
appended as an entry to the strip list of every tile its screen-space bounds
overlap, a rejected cluster is appended to no tile's strip list; the engine
source is not under src/. -/
def bin_cluster (strips : ℕ → List ℕ) (idx : ℕ) (c : cluster_cull_info) :
    ℕ → List ℕ :=
  if cluster_survives c then
    fun t => if c.overlaps_tile t then strips t ++ [idx] else strips t
  else strips

/-- Modelled from the spec: binning the clusters of a dispatched segment in
order, numbering them from `i0`; the engine source is not under src/. -/
def bin_clusters_from (cs : List cluster_cull_info) (i0 : ℕ)
    (strips : ℕ → List ℕ) : ℕ → List ℕ :=
  match cs with
  | [] => strips
  | c :: rest => bin_clusters_from rest (i0 + 1) (bin_cluster strips i0 c)

/-- Modelled from the spec: the per-tile strip lists produced by binning a
dispatch's clusters into initially empty strip lists; the engine source is
not under src/. -/
def dispatch_bin (cs : List cluster_cull_info) : ℕ → List ℕ :=
  bin_clusters_from cs 0 (fun _ => [])

/-- Modelled from the spec: the rendering pipeline of one tile from
`dispatch_pso` through `commit` — bin the clusters, then rasterize the tile's
strip-list entries in order (`raster_of` gives the screen-space triangles of
a binned cluster index, `tile0` the tile's cleared pixel state); the engine
source is not under src/. -/
def dispatch_and_commit (rs : render_state) (cs : List cluster_cull_info)
    (raster_of : ℕ → tri_raster) (tile0 : ℕ × ℕ → pixel_state) (t : ℕ) :
    ℕ × ℕ → pixel_state :=
  commit_tile rs ((dispatch_bin cs t).map raster_of) tile0

/-- Modelled from the spec: the per-buffer capacities of the static memory
configuration (`rasterizer_memory_cfg_base` overrides in the examples); the
engine source is not under src/. -/
structure rasterizer_memory_cfg_model where
  max_dispatches : ℕ
  max_clusters : ℕ
  max_cluster_strips : ℕ
  max_ptv_buffer_size : ℕ
deriving DecidableEq, Repr

/-- Modelled from the spec: the per-frame bookkeeping state of the engine —
dispatch/cluster/strip counters, the per-tile cluster strip lists, and the
depth buffer; the engine source is not under src/. -/
structure engine_frame_state where
  dispatch_count : ℕ
  cluster_count : ℕ
  cluster_strip_count : ℕ
  tile_strips : ℕ → List ℕ
  depth_buffer : ℕ × ℕ → ℚ

/-- Modelled from the spec: the buffer reset performed at the end of
`commit` — all per-frame counters and strip lists are cleared, and the depth
buffer is preserved when retained across frames and otherwise cleared to the
set clear value; the engine source is not under src/. -/
def commit_reset (retain_depth : Bool) (clear_value : ℚ)
    (s : engine_frame_state) : engine_frame_state :=
  { dispatch_count := 0
    cluster_count := 0
    cluster_strip_count := 0
    tile_strips := fun _ => []
    depth_buffer :=
      if retain_depth then s.depth_buffer else fun _ => clear_value }

/-- Modelled from the spec: the `dispatch_pso` precondition that fewer than
the configured maximum number of dispatches have occurred since the last
commit; the engine source is not under src/. -/
def dispatch_allowed (cfg : rasterizer_memory_cfg_model)
    (s : engine_frame_state) : Bool :=
  decide (s.dispatch_count < cfg.max_dispatches)

/-- Modelled from the spec: the build configurations — capacity checks are
compiled into debug and release builds and compiled out of retail builds; the
engine source is not under src/. -/
inductive build_config
  | debug
  | release
  | retail
deriving DecidableEq, Repr

/-- Modelled from the spec: the configured capacities a frame can exceed —
too many dispatches, clusters, cluster strips, or PTV buffer overflow; the
engine source is not under src/. -/
inductive capacity_limit
  | dispatches
  | clusters
  | cluster_strips
  | ptv_buffer
deriving DecidableEq, Repr

/-- Per-frame high-water usage of each capacity-limited buffer. -/
structure frame_usage where
  dispatches : ℕ
  clusters : ℕ
  cluster_strips : ℕ
  ptv_bytes : ℕ
deriving DecidableEq, Repr

/-- The configured capacity of each limit. -/
def limit_capacity (cfg : rasterizer_memory_cfg_model) :
    capacity_limit → ℕ
  | .dispatches => cfg.max_dispatches
  | .clusters => cfg.max_clusters
  | .cluster_strips => cfg.max_cluster_strips
  | .ptv_buffer => cfg.max_ptv_buffer_size

/-- The frame's usage of each limit. -/
def limit_usage (u : frame_usage) : capacity_limit → ℕ
  | .dispatches => u.dispatches
  | .clusters => u.clusters
  | .cluster_strips => u.cluster_strips
  | .ptv_buffer => u.ptv_bytes

/-- Modelled from the spec: whether the capacity checks are compiled into the
build — present in debug and release, compiled out in retail; the engine
source is not under src/. -/
def capacity_checks_compiled (b : build_config) : Bool :=
  match b with
  | .retail => false
  | _ => true

/-- Modelled from the spec: how a frame ends with respect to the capacity
ceiling — it completes, or it is fatal with a diagnostic identifying the
limit that was hit, or (checks compiled out) it is undefined behavior; there
is no recovering outcome that continues the frame; the engine source is not
under src/. -/
inductive frame_outcome
  | completed
  | fatal (l : capacity_limit)
  | undefined_behavior
deriving DecidableEq, Repr

/-- All four configured capacity limits. -/
def all_capacity_limits : List capacity_limit :=
  [.dispatches, .clusters, .cluster_strips, .ptv_buffer]

/-- The limits whose configured capacity the frame's usage exceeds. -/
def exceeded_limits (cfg : rasterizer_memory_cfg_model) (u : frame_usage) :
    List capacity_limit :=
  all_capacity_limits.filter (fun l => decide (limit_capacity cfg l < limit_usage u l))

/-- Modelled from the spec: the outcome of a frame with the given capacity
usage — exceeding any configured capacity is fatal and reported with a
diagnostic identifying the limit in builds with checks compiled in, and is
undefined behavior in a retail build; the engine source is not under src/. -/
def frame_capacity_outcome (b : build_config)
    (cfg : rasterizer_memory_cfg_model) (u : frame_usage) : frame_outcome :=
  match exceeded_limits cfg u with
  | [] => .completed
  | l :: _ =>
    if capacity_checks_compiled b then .fatal l else .undefined_behavior

/-- A rectangle passed to the immediate-mode draw functions: signed corner
coordinates (`int16_t x, y` in the 00_HelloRect call site) and extents. -/
structure rect where
  x : ℤ
  y : ℤ
  w : ℤ
  h : ℤ
deriving DecidableEq, Repr

/-- Whether a pixel coordinate lies inside a rectangle. -/
def in_rect (r : rect) (p : ℤ × ℤ) : Bool :=
  decide (r.x ≤ p.1) && decide (p.1 < r.x + r.w) &&
  decide (r.y ≤ p.2) && decide (p.2 < r.y + r.h)

/-- Whether a pixel coordinate lies inside the display of the given
dimensions (`fb_width`/`fb_height` of the device). -/
def in_screen (fbw fbh : ℕ) (p : ℤ × ℤ) : Bool :=
  decide (0 ≤ p.1) && decide (p.1 < (fbw : ℤ)) &&
  decide (0 ≤ p.2) && decide (p.2 < (fbh : ℤ))

/-- Modelled from the spec: `draw_rect` clips the rectangle to screen bounds,
so it writes exactly the pixels of the rectangle that lie on the display; the
immediate-mode path's source is not under src/. -/
def draw_rect_writes (fbw fbh : ℕ) (r : rect) (p : ℤ × ℤ) : Bool :=
  in_rect r p && in_screen fbw fbh p

/-- Modelled from the spec: `fast_draw_rect` skips clipping and writes every
pixel of the rectangle as given; the immediate-mode path's source is not
under src/. -/
def fast_draw_rect_writes (r : rect) (p : ℤ × ℤ) : Bool :=
  in_rect r p

/-- The documented precondition of `fast_draw_rect`: the rectangle lies
entirely within the display. -/
def rect_within_screen (fbw fbh : ℕ) (r : rect) : Bool :=
  decide (0 ≤ r.x) && decide (r.x + r.w ≤ (fbw : ℤ)) &&
  decide (0 ≤ r.y) && decide (r.y + r.h ≤ (fbh : ℤ))

/-- The two barycentric-coordinate interpolation modes selectable per render
state (`rstate_bcimode_perspective` in 04_TexCube, `rstate_bcimode_noperspective`
in 08_TightMem). -/
inductive rstate_bcimode
  | perspective
  | noperspective
deriving DecidableEq, Repr

/-- Modelled from the spec: attribute interpolation as selected by the render
state — perspective correction interpolates each attribute divided by its
vertex's clip-space w together with 1/w across the screen-space barycentric
coordinates and performs the one division per pixel, while the linear
(noperspective) mode takes the plain barycentric combination; the rasterizer
core's source is not under src/. -/
def interp_attr (mode : rstate_bcimode) (a0 a1 a2 w0 w1 w2 b0 b1 b2 : ℚ) : ℚ :=
  match mode with
  | .perspective =>
    (b0 * (a0 / w0) + b1 * (a1 / w1) + b2 * (a2 / w2)) /
      (b0 / w0 + b1 / w1 + b2 / w2)
  | .noperspective => b0 * a0 + b1 * a1 + b2 * a2

/-- Direct analytic perspective interpolation, following the spec's words:
each vertex attribute weighted by its normalized clip-space weight
`(bi/wi) / (b0/w0 + b1/w1 + b2/w2)`. -/
def analytic_persp_interp (a0 a1 a2 w0 w1 w2 b0 b1 b2 : ℚ) : ℚ :=
  ((b0 / w0) / (b0 / w0 + b1 / w1 + b2 / w2)) * a0 +
  ((b1 / w1) / (b0 / w0 + b1 / w1 + b2 / w2)) * a1 +
  ((b2 / w2) / (b0 / w0 + b1 / w1 + b2 / w2)) * a2

/-- Plain barycentric average of three vertex attribute values, following the
spec's words for the linear mode. -/
def barycentric_average (a0 a1 a2 b0 b1 b2 : ℚ) : ℚ :=
  b0 * a0 + b1 * a1 + b2 * a2

/-- Membership in the strip list after binning a single cluster. -/
theorem mem_bin_cluster (strips : ℕ → List ℕ) (idx : ℕ)
    (c : cluster_cull_info) (t i : ℕ) :
    i ∈ bin_cluster strips idx c t ↔
      i ∈ strips t ∨
        (i = idx ∧ cluster_survives c = true ∧ c.overlaps_tile t = true) := by
  unfold bin_cluster
  by_cases hs : cluster_survives c = true
  · by_cases ho : c.overlaps_tile t = true
    · simp [hs, ho]
    · simp [hs, ho]
  · simp [hs]

/-- Membership in the strip lists after binning a cluster list numbered from
`i0`. -/
theorem mem_bin_clusters_from (cs : List cluster_cull_info) (i0 : ℕ)
    (strips : ℕ → List ℕ) (t i : ℕ) :
    i ∈ bin_clusters_from cs i0 strips t ↔
      i ∈ strips t ∨
        ∃ j, ∃ hj : j < cs.length, i = i0 + j ∧
          cluster_survives (cs.get ⟨j, hj⟩) = true ∧
          (cs.get ⟨j, hj⟩).overlaps_tile t = true := by
  induction cs generalizing i0 strips with
  | nil => simp [bin_clusters_from]
  | cons c rest ih =>
    rw [bin_clusters_from, ih]
    rw [mem_bin_cluster]
    constructor
    · rintro ((h | ⟨hii, hs, ho⟩) | ⟨j, hj, hij, hs, ho⟩)
      · exact Or.inl h
      · exact Or.inr ⟨0, Nat.succ_pos _, by omega, hs, ho⟩
      · exact Or.inr ⟨j + 1, Nat.succ_lt_succ hj, by omega, hs, ho⟩
    · rintro (h | ⟨j, hj, hij, hs, ho⟩)
      · exact Or.inl (Or.inl h)
      · cases j with
        | zero =>
          exact Or.inl (Or.inr ⟨by omega, hs, ho⟩)
        | succ k =>
          exact Or.inr ⟨k, Nat.lt_of_succ_lt_succ hj, by omega, hs, ho⟩

/-- C10: for every pair of invocations of `ps_color::exec` (03_MultiDispatch)
whose shader color fields are equal, the value exported to render target 0 is
equal, for all choices of the three input vertices and the barycentric
coordinate vector — the output depends only on the shader's color field and
not on any vertex or barycentric input. -/
theorem ps_color_exec_depends_only_on_color
    (ps1 ps2 : ps_color) (h : ps1.color = ps2.color)
    (v0 v1 v2 u0 u1 u2 : ps_color_psin) (bc bc' : ℚ × ℚ × ℚ)
    (i i' : ℕ) :
    ps_color.exec ps1 v0 v1 v2 bc i = ps_color.exec ps2 u0 u1 u2 bc' i' := by
  simp [ps_color.exec, h]

/-- Witness for C10 at concrete inputs. -/
theorem ps_color_exec_depends_only_on_color_witness :
    (ps_color.mk ⟨1, 0, 0, 1⟩).color = (ps_color.mk ⟨1, 0, 0, 1⟩).color ∧
    ps_color.exec (ps_color.mk ⟨1, 0, 0, 1⟩) ⟨(0, 0, 0, 1)⟩ ⟨(1, 0, 0, 1)⟩
        ⟨(0, 1, 0, 1)⟩ (1, 0, 0) 0 =
      ps_color.exec (ps_color.mk ⟨1, 0, 0, 1⟩) ⟨(2, 0, 0, 1)⟩ ⟨(3, 0, 0, 1)⟩
        ⟨(0, 5, 0, 1)⟩ (0, 1, 0) 1 :=
  ⟨rfl,
   ps_color_exec_depends_only_on_color (ps_color.mk ⟨1, 0, 0, 1⟩)
     (ps_color.mk ⟨1, 0, 0, 1⟩) rfl ⟨(0, 0, 0, 1)⟩ ⟨(1, 0, 0, 1)⟩
     ⟨(0, 1, 0, 1)⟩ ⟨(2, 0, 0, 1)⟩ ⟨(3, 0, 0, 1)⟩ ⟨(0, 5, 0, 1)⟩
     (1, 0, 0) (0, 1, 0) 0 1⟩

/-- C9: a pixel shader may decline to write any output — every invocation of
`ps_gauge_needle::exec` (05_Speedometer) with primitive index 2 or greater,
or with a sampled needle texel whose alpha bit is 0, makes no `export_rt0`
call, and the destination render-target pixel for that fragment keeps exactly
its prior value. -/
theorem ps_gauge_needle_exec_discard
    (sample : ℚ × ℚ → pixel_r5g5b5a1) (v0 v1 v2 : ps_gauge_needle_psin)
    (bc : ℚ × ℚ × ℚ) (prim_idx : ℕ) (prior : pixel_r5g5b5a1)
    (h : 2 ≤ prim_idx ∨ (sample (vec2_bary v0.uv v1.uv v2.uv bc)).a = 0) :
    ps_gauge_needle_exec sample v0 v1 v2 bc prim_idx = none ∧
    apply_pixel_export prior (ps_gauge_needle_exec sample v0 v1 v2 bc prim_idx) =
      prior := by
  have hnone : ps_gauge_needle_exec sample v0 v1 v2 bc prim_idx = none := by
    unfold ps_gauge_needle_exec
    by_cases hp : prim_idx < 2
    · rw [if_pos hp]
      rcases h with h | h
      · omega
      · simp [h]
    · rw [if_neg hp]
  exact ⟨hnone, by rw [hnone]; rfl⟩

/-- Witness for C9 at concrete inputs: primitive index 2 and a sampler whose
texel has alpha bit 0 (either condition alone discards). -/
theorem ps_gauge_needle_exec_discard_witness :
    (2 ≤ 2 ∨
      ((fun _ => pixel_r5g5b5a1.mk 31 0 0 0) (vec2_bary (0, 0) (1, 0) (0, 1)
        (1, 0, 0))).a = 0) ∧
    ps_gauge_needle_exec (fun _ => pixel_r5g5b5a1.mk 31 0 0 0)
        ⟨(0, 0), (0, 0)⟩ ⟨(1, 0), (1, 0)⟩ ⟨(0, 1), (0, 1)⟩ (1, 0, 0) 2 = none ∧
    apply_pixel_export (pixel_r5g5b5a1.mk 7 7 7 1)
        (ps_gauge_needle_exec (fun _ => pixel_r5g5b5a1.mk 31 0 0 0)
          ⟨(0, 0), (0, 0)⟩ ⟨(1, 0), (1, 0)⟩ ⟨(0, 1), (0, 1)⟩ (1, 0, 0) 2) =
      pixel_r5g5b5a1.mk 7 7 7 1 :=
  ⟨Or.inl (by decide),
   ps_gauge_needle_exec_discard (fun _ => pixel_r5g5b5a1.mk 31 0 0 0)
     ⟨(0, 0), (0, 0)⟩ ⟨(1, 0), (1, 0)⟩ ⟨(0, 1), (0, 1)⟩ (1, 0, 0) 2
     (pixel_r5g5b5a1.mk 7 7 7 1) (Or.inl (by decide))⟩

/-- C1: for two opaque triangles (replace blend, standard depth test
enabled, no debug flag) that overlap in screen space and are dispatched in
far-then-near order over a tile cleared to a depth behind both, the tile
produced by commit shows the near triangle's color at every overlapping
pixel, and the committed color at the overlap is the same when the two
triangles are dispatched in the opposite order. -/
theorem opaque_overlap_commit_shows_near
    (far near : tri_raster) (tile0 : ℕ × ℕ → pixel_state) (xy : ℕ × ℕ)
    (hcf : far.covers xy = true) (hcn : near.covers xy = true)
    (hd : near.depth_at xy < far.depth_at xy)
    (hclear : far.depth_at xy < (tile0 xy).depth) :
    (commit_tile ⟨depth_compare.less, blend_func.blendfunc_replace, false⟩
        [far, near] tile0 xy).color = near.color_at xy ∧
    (commit_tile ⟨depth_compare.less, blend_func.blendfunc_replace, false⟩
        [near, far] tile0 xy).color = near.color_at xy := by
  have hnc : near.depth_at xy < (tile0 xy).depth := hd.trans hclear
  have hnf : ¬ far.depth_at xy < near.depth_at xy := lt_asymm hd
  constructor
  · simp [commit_tile, raster_triangle, process_fragment, shader_runs,
      depth_test, apply_blend, hcf, hcn, hd, hclear]
  · simp [commit_tile, raster_triangle, process_fragment, shader_runs,
      depth_test, apply_blend, hcf, hcn, hnc, hnf]

/-- Witness for C1 at concrete triangles: far at depth 2, near at depth 1,
over a tile cleared to depth 5. -/
theorem opaque_overlap_commit_shows_near_witness :
    ((1 : ℚ) < 2 ∧ (2 : ℚ) < 5) ∧
    (commit_tile ⟨depth_compare.less, blend_func.blendfunc_replace, false⟩
          [tri_raster.mk (fun _ => true) (fun _ => 2) (fun _ => ⟨0, 0, 1, 1⟩),
           tri_raster.mk (fun _ => true) (fun _ => 1) (fun _ => ⟨1, 0, 0, 1⟩)]
          (fun _ => ⟨⟨0, 0, 0, 0⟩, 5⟩) (0, 0)).color = ⟨1, 0, 0, 1⟩ ∧
      (commit_tile ⟨depth_compare.less, blend_func.blendfunc_replace, false⟩
          [tri_raster.mk (fun _ => true) (fun _ => 1) (fun _ => ⟨1, 0, 0, 1⟩),
           tri_raster.mk (fun _ => true) (fun _ => 2) (fun _ => ⟨0, 0, 1, 1⟩)]
          (fun _ => ⟨⟨0, 0, 0, 0⟩, 5⟩) (0, 0)).color = ⟨1, 0, 0, 1⟩ :=
  ⟨⟨by decide, by decide⟩,
   opaque_overlap_commit_shows_near
     (tri_raster.mk (fun _ => true) (fun _ => 2) (fun _ => ⟨0, 0, 1, 1⟩))
     (tri_raster.mk (fun _ => true) (fun _ => 1) (fun _ => ⟨1, 0, 0, 1⟩))
     (fun _ => ⟨⟨0, 0, 0, 0⟩, 5⟩) (0, 0) rfl rfl (by decide) (by decide)⟩

/-- C2: for every fragment whose interpolated depth fails the configured
depth comparison against the current depth-buffer value, the bound pixel
shader is not invoked (and the render-target pixel is untouched) — unless the
render state sets the debug flag `debug_disable_pixel_depth_test`, in which
case the pixel shader is invoked for every covered fragment while the depth
buffer and Hi-Z update policy remain exactly as without the flag. -/
theorem depth_gate_and_debug_flag
    (cmp : depth_compare) (bf : blend_func) (f : fragment) (p : pixel_state) :
    (depth_test cmp f.depth p.depth = false →
      shader_runs ⟨cmp, bf, false⟩ f.depth p.depth = false ∧
      (process_fragment ⟨cmp, bf, false⟩ f p).color = p.color) ∧
    shader_runs ⟨cmp, bf, true⟩ f.depth p.depth = true ∧
    (process_fragment ⟨cmp, bf, true⟩ f p).depth =
      (process_fragment ⟨cmp, bf, false⟩ f p).depth ∧
    hiz_summary [(process_fragment ⟨cmp, bf, true⟩ f p).depth] =
      hiz_summary [(process_fragment ⟨cmp, bf, false⟩ f p).depth] := by
  refine ⟨fun hfail => ⟨?_, ?_⟩, ?_, ?_, ?_⟩
  · simp [shader_runs, hfail]
  · simp [process_fragment, shader_runs, hfail]
  · simp [shader_runs]
  · simp [process_fragment]
  · simp [process_fragment]

/-- Witness for C2 at a concrete failing fragment: depth 3 against buffer
depth 2 under the standard less comparison. -/
theorem depth_gate_and_debug_flag_witness :
    shader_runs ⟨depth_compare.less, blend_func.blendfunc_replace, false⟩
        (fragment.mk 3 ⟨1, 1, 1, 1⟩).depth
        (pixel_state.mk ⟨0, 0, 0, 0⟩ 2).depth = false ∧
    (process_fragment ⟨depth_compare.less, blend_func.blendfunc_replace, false⟩
        (fragment.mk 3 ⟨1, 1, 1, 1⟩)
        (pixel_state.mk ⟨0, 0, 0, 0⟩ 2)).color =
      (pixel_state.mk ⟨0, 0, 0, 0⟩ 2).color ∧
    shader_runs ⟨depth_compare.less, blend_func.blendfunc_replace, true⟩
        (fragment.mk 3 ⟨1, 1, 1, 1⟩).depth
        (pixel_state.mk ⟨0, 0, 0, 0⟩ 2).depth = true ∧
    (process_fragment ⟨depth_compare.less, blend_func.blendfunc_replace, true⟩
        (fragment.mk 3 ⟨1, 1, 1, 1⟩)
        (pixel_state.mk ⟨0, 0, 0, 0⟩ 2)).depth =
      (process_fragment ⟨depth_compare.less, blend_func.blendfunc_replace, false⟩
        (fragment.mk 3 ⟨1, 1, 1, 1⟩)
        (pixel_state.mk ⟨0, 0, 0, 0⟩ 2)).depth ∧
    hiz_summary [(process_fragment
        ⟨depth_compare.less, blend_func.blendfunc_replace, true⟩
        (fragment.mk 3 ⟨1, 1, 1, 1⟩)
        (pixel_state.mk ⟨0, 0, 0, 0⟩ 2)).depth] =
      hiz_summary [(process_fragment
        ⟨depth_compare.less, blend_func.blendfunc_replace, false⟩
        (fragment.mk 3 ⟨1, 1, 1, 1⟩)
        (pixel_state.mk ⟨0, 0, 0, 0⟩ 2)).depth] :=
  ⟨((depth_gate_and_debug_flag depth_compare.less blend_func.blendfunc_replace
      (fragment.mk 3 ⟨1, 1, 1, 1⟩) (pixel_state.mk ⟨0, 0, 0, 0⟩ 2)).1
      (by decide)).1,
   ((depth_gate_and_debug_flag depth_compare.less blend_func.blendfunc_replace
      (fragment.mk 3 ⟨1, 1, 1, 1⟩) (pixel_state.mk ⟨0, 0, 0, 0⟩ 2)).1
      (by decide)).2,
   (depth_gate_and_debug_flag depth_compare.less blend_func.blendfunc_replace
      (fragment.mk 3 ⟨1, 1, 1, 1⟩) (pixel_state.mk ⟨0, 0, 0, 0⟩ 2)).2⟩

/-- C3: after every commit completes, all per-frame counters and per-tile
cluster strip lists are cleared, the dispatch count is reset to zero so new
`dispatch_pso` calls are permitted (for any positive configured maximum), and
the persistent depth buffer, when retained across frames, is preserved
unchanged by the reset. -/
theorem commit_reset_postcondition
    (cfg : rasterizer_memory_cfg_model) (clear_value : ℚ)
    (s : engine_frame_state) (hcap : 0 < cfg.max_dispatches) :
    (commit_reset true clear_value s).dispatch_count = 0 ∧
    (commit_reset true clear_value s).cluster_count = 0 ∧
    (commit_reset true clear_value s).cluster_strip_count = 0 ∧
    (∀ t, (commit_reset true clear_value s).tile_strips t = []) ∧
    (commit_reset true clear_value s).depth_buffer = s.depth_buffer ∧
    dispatch_allowed cfg (commit_reset true clear_value s) = true := by
  refine ⟨rfl, rfl, rfl, fun t => rfl, rfl, ?_⟩
  simp [dispatch_allowed, commit_reset, hcap]

/-- Witness for C3 at a concrete configuration and frame state. -/
theorem commit_reset_postcondition_witness :
    0 < (rasterizer_memory_cfg_model.mk 1 256 256 1280).max_dispatches ∧
    ((commit_reset true 5 (engine_frame_state.mk 1 8 12 (fun _ => [0])
        (fun _ => 3))).dispatch_count = 0 ∧
      (commit_reset true 5 (engine_frame_state.mk 1 8 12 (fun _ => [0])
        (fun _ => 3))).cluster_count = 0 ∧
      (commit_reset true 5 (engine_frame_state.mk 1 8 12 (fun _ => [0])
        (fun _ => 3))).cluster_strip_count = 0 ∧
      (∀ t, (commit_reset true 5 (engine_frame_state.mk 1 8 12 (fun _ => [0])
        (fun _ => 3))).tile_strips t = []) ∧
      (commit_reset true 5 (engine_frame_state.mk 1 8 12 (fun _ => [0])
          (fun _ => 3))).depth_buffer =
        (engine_frame_state.mk 1 8 12 (fun _ => [0]) (fun _ => 3)).depth_buffer ∧
      dispatch_allowed (rasterizer_memory_cfg_model.mk 1 256 256 1280)
        (commit_reset true 5 (engine_frame_state.mk 1 8 12 (fun _ => [0])
          (fun _ => 3))) = true) :=
  ⟨by decide,
   commit_reset_postcondition (rasterizer_memory_cfg_model.mk 1 256 256 1280)
     5 (engine_frame_state.mk 1 8 12 (fun _ => [0]) (fun _ => 3)) (by decide)⟩

/-- C4: a cluster whose bounding volume is fully outside the view frustum at
`dispatch_pso` time is appended to no tile's strip list by binning, and a
cluster that survives culling appears in a tile's strip list exactly when its
screen-space bounds overlap that tile. -/
theorem binning_excludes_frustum_culled
    (cs : List cluster_cull_info) (t i : ℕ) (hi : i < cs.length) :
    ((cs.get ⟨i, hi⟩).outside_frustum = true → i ∉ dispatch_bin cs t) ∧
    (cluster_survives (cs.get ⟨i, hi⟩) = true →
      (i ∈ dispatch_bin cs t ↔ (cs.get ⟨i, hi⟩).overlaps_tile t = true)) := by
  constructor
  · intro hout hmem
    rw [dispatch_bin, mem_bin_clusters_from] at hmem
    rcases hmem with h | ⟨j, hj, hij, hs, ho⟩
    · simp at h
    · have hji : j = i := by omega
      subst hji
      simp only [List.get_eq_getElem] at hout
      simp [cluster_survives, hout] at hs
  · intro hs
    rw [dispatch_bin, mem_bin_clusters_from]
    constructor
    · rintro (h | ⟨j, hj, hij, hjs, ho⟩)
      · simp at h
      · have hji : j = i := by omega
        subst hji
        exact ho
    · intro ho
      exact Or.inr ⟨i, hi, by omega, hs, ho⟩

/-- Witness for C4 at a concrete two-cluster dispatch: cluster 0 fully
outside the frustum, cluster 1 surviving and overlapping exactly tile 3. -/
theorem binning_excludes_frustum_culled_witness :
    0 < [cluster_cull_info.mk true false false (fun _ => true),
         cluster_cull_info.mk false false false (fun t => t == 3)].length ∧
    (([cluster_cull_info.mk true false false (fun _ => true),
       cluster_cull_info.mk false false false (fun t => t == 3)].get
        ⟨0, by decide⟩).outside_frustum = true →
      0 ∉ dispatch_bin
        [cluster_cull_info.mk true false false (fun _ => true),
         cluster_cull_info.mk false false false (fun t => t == 3)] 3) ∧
    (cluster_survives
        ([cluster_cull_info.mk true false false (fun _ => true),
          cluster_cull_info.mk false false false (fun t => t == 3)].get
          ⟨0, by decide⟩) = true →
      (0 ∈ dispatch_bin
          [cluster_cull_info.mk true false false (fun _ => true),
           cluster_cull_info.mk false false false (fun t => t == 3)] 3 ↔
        ([cluster_cull_info.mk true false false (fun _ => true),
          cluster_cull_info.mk false false false (fun t => t == 3)].get
          ⟨0, by decide⟩).overlaps_tile 3 = true)) :=
  ⟨by decide,
   binning_excludes_frustum_culled
     [cluster_cull_info.mk true false false (fun _ => true),
      cluster_cull_info.mk false false false (fun t => t == 3)] 3 0 (by decide)⟩

/-- C5: whenever a frame exceeds any configured capacity, the condition is
fatal and reported with a diagnostic identifying which limit was hit in
builds with the checks compiled in (debug and release), is undefined behavior
in a retail build where the checks are compiled out, and in no build does the
frame end in the completed outcome — there is no recovery path that continues
the frame. -/
theorem capacity_exceeded_is_fatal
    (b : build_config) (cfg : rasterizer_memory_cfg_model) (u : frame_usage)
    (hex : ∃ l, limit_capacity cfg l < limit_usage u l) :
    (capacity_checks_compiled b = true →
      ∃ l, frame_capacity_outcome b cfg u = frame_outcome.fatal l ∧
        limit_capacity cfg l < limit_usage u l) ∧
    (b = build_config.retail →
      frame_capacity_outcome b cfg u = frame_outcome.undefined_behavior) ∧
    frame_capacity_outcome b cfg u ≠ frame_outcome.completed := by
  have hne : exceeded_limits cfg u ≠ [] := by
    rcases hex with ⟨l, hl⟩
    intro hnil
    have hmem : l ∈ exceeded_limits cfg u := by
      rw [exceeded_limits, List.mem_filter]
      refine ⟨?_, by simpa using hl⟩
      cases l <;> simp [all_capacity_limits]
    rw [hnil] at hmem
    simp at hmem
  rcases hhead : exceeded_limits cfg u with _ | ⟨l0, rest⟩
  · exact absurd hhead hne
  have hl0 : limit_capacity cfg l0 < limit_usage u l0 := by
    have hmem : l0 ∈ exceeded_limits cfg u := by rw [hhead]; simp
    rw [exceeded_limits, List.mem_filter] at hmem
    simpa using hmem.2
  refine ⟨?_, ?_, ?_⟩
  · intro hchk
    refine ⟨l0, ?_, hl0⟩
    simp [frame_capacity_outcome, hhead, hchk]
  · intro hb
    subst hb
    simp [frame_capacity_outcome, hhead, capacity_checks_compiled]
  · by_cases hchk : capacity_checks_compiled b = true
    · simp [frame_capacity_outcome, hhead, hchk]
    · simp [frame_capacity_outcome, hhead, hchk]

/-- Witness for C5: a frame with two dispatches against a configured maximum
of one, in the debug build. -/
theorem capacity_exceeded_is_fatal_witness :
    (∃ l, limit_capacity (rasterizer_memory_cfg_model.mk 1 256 256 1280) l <
      limit_usage (frame_usage.mk 2 8 12 100) l) ∧
    ((capacity_checks_compiled build_config.debug = true →
      ∃ l, frame_capacity_outcome build_config.debug
          (rasterizer_memory_cfg_model.mk 1 256 256 1280)
          (frame_usage.mk 2 8 12 100) = frame_outcome.fatal l ∧
        limit_capacity (rasterizer_memory_cfg_model.mk 1 256 256 1280) l <
          limit_usage (frame_usage.mk 2 8 12 100) l) ∧
    (build_config.debug = build_config.retail →
      frame_capacity_outcome build_config.debug
        (rasterizer_memory_cfg_model.mk 1 256 256 1280)
        (frame_usage.mk 2 8 12 100) = frame_outcome.undefined_behavior) ∧
    frame_capacity_outcome build_config.debug
      (rasterizer_memory_cfg_model.mk 1 256 256 1280)
      (frame_usage.mk 2 8 12 100) ≠ frame_outcome.completed) :=
  ⟨⟨capacity_limit.dispatches, by decide⟩,
   capacity_exceeded_is_fatal build_config.debug
     (rasterizer_memory_cfg_model.mk 1 256 256 1280)
     (frame_usage.mk 2 8 12 100)
     ⟨capacity_limit.dispatches, by decide⟩⟩

/-- C6: for every rectangle passed to `draw_rect`, the drawn pixel region is
the rectangle clipped to the screen bounds — pixels outside the display are
never written and the written set is defined for any rectangle — while
`fast_draw_rect` performs no clipping, and under its documented precondition
that the rectangle lies entirely within the display it writes the same
pixel set as `draw_rect`. -/
theorem draw_rect_clips_fast_draw_rect_does_not
    (fbw fbh : ℕ) (r : rect) (p : ℤ × ℤ) :
    (draw_rect_writes fbw fbh r p = (in_rect r p && in_screen fbw fbh p)) ∧
    (draw_rect_writes fbw fbh r p = true → in_screen fbw fbh p = true) ∧
    (fast_draw_rect_writes r p = in_rect r p) ∧
    (rect_within_screen fbw fbh r = true →
      fast_draw_rect_writes r p = draw_rect_writes fbw fbh r p) := by
  refine ⟨rfl, ?_, rfl, ?_⟩
  · intro h
    rw [draw_rect_writes, Bool.and_eq_true] at h
    exact h.2
  · intro hw
    rw [rect_within_screen] at hw
    simp only [Bool.and_eq_true, decide_eq_true_eq] at hw
    obtain ⟨⟨⟨hx0, hxw⟩, hy0⟩, hyh⟩ := hw
    rw [fast_draw_rect_writes, draw_rect_writes]
    by_cases hin : in_rect r p = true
    · rw [hin]
      have hscr : in_screen fbw fbh p = true := by
        rw [in_rect] at hin
        simp only [Bool.and_eq_true, decide_eq_true_eq] at hin
        obtain ⟨⟨⟨hpx0, hpxw⟩, hpy0⟩, hpyh⟩ := hin
        rw [in_screen]
        simp only [Bool.and_eq_true, decide_eq_true_eq]
        exact ⟨⟨⟨le_trans hx0 hpx0, lt_of_lt_of_le hpxw hxw⟩,
          le_trans hy0 hpy0⟩, lt_of_lt_of_le hpyh hyh⟩
      rw [hscr]
      rfl
    · rw [Bool.not_eq_true] at hin
      rw [hin, Bool.false_and]

/-- Witness for C6: the display is 320 by 240 and the rectangle sits fully
inside it. -/
theorem draw_rect_clips_fast_draw_rect_does_not_witness :
    (draw_rect_writes 320 240 (rect.mk 10 20 100 50) (15, 25) =
      (in_rect (rect.mk 10 20 100 50) (15, 25) && in_screen 320 240 (15, 25))) ∧
    (draw_rect_writes 320 240 (rect.mk 10 20 100 50) (15, 25) = true →
      in_screen 320 240 (15, 25) = true) ∧
    (fast_draw_rect_writes (rect.mk 10 20 100 50) (15, 25) =
      in_rect (rect.mk 10 20 100 50) (15, 25)) ∧
    (rect_within_screen 320 240 (rect.mk 10 20 100 50) = true →
      fast_draw_rect_writes (rect.mk 10 20 100 50) (15, 25) =
        draw_rect_writes 320 240 (rect.mk 10 20 100 50) (15, 25)) :=
  draw_rect_clips_fast_draw_rect_does_not 320 240 (rect.mk 10 20 100 50) (15, 25)

/-- C7: the rendering pipeline from `dispatch_pso` through `commit` is a
deterministic function of its inputs — dispatching the same clusters with
identical render state, identical per-cluster screen-space triangles and
identical starting tile state produces bit-identical committed tile output
on both runs. -/
theorem dispatch_and_commit_deterministic
    (rs1 rs2 : render_state) (cs1 cs2 : List cluster_cull_info)
    (raster1 raster2 : ℕ → tri_raster)
    (tile1 tile2 : ℕ × ℕ → pixel_state) (t1 t2 : ℕ)
    (hrs : rs1 = rs2) (hcs : cs1 = cs2) (hraster : raster1 = raster2)
    (htile : tile1 = tile2) (ht : t1 = t2) :
    dispatch_and_commit rs1 cs1 raster1 tile1 t1 =
      dispatch_and_commit rs2 cs2 raster2 tile2 t2 := by
  rw [hrs, hcs, hraster, htile, ht]

/-- Witness for C7 at a concrete one-cluster dispatch rendered twice. -/
theorem dispatch_and_commit_deterministic_witness :
    dispatch_and_commit ⟨depth_compare.less, blend_func.blendfunc_replace, false⟩
        [cluster_cull_info.mk false false false (fun _ => true)]
        (fun _ => tri_raster.mk (fun _ => true) (fun _ => 1) (fun _ => ⟨1, 0, 0, 1⟩))
        (fun _ => ⟨⟨0, 0, 0, 0⟩, 5⟩) 0 =
      dispatch_and_commit ⟨depth_compare.less, blend_func.blendfunc_replace, false⟩
        [cluster_cull_info.mk false false false (fun _ => true)]
        (fun _ => tri_raster.mk (fun _ => true) (fun _ => 1) (fun _ => ⟨1, 0, 0, 1⟩))
        (fun _ => ⟨⟨0, 0, 0, 0⟩, 5⟩) 0 :=
  dispatch_and_commit_deterministic
    ⟨depth_compare.less, blend_func.blendfunc_replace, false⟩
    ⟨depth_compare.less, blend_func.blendfunc_replace, false⟩
    [cluster_cull_info.mk false false false (fun _ => true)]
    [cluster_cull_info.mk false false false (fun _ => true)]
    (fun _ => tri_raster.mk (fun _ => true) (fun _ => 1) (fun _ => ⟨1, 0, 0, 1⟩))
    (fun _ => tri_raster.mk (fun _ => true) (fun _ => 1) (fun _ => ⟨1, 0, 0, 1⟩))
    (fun _ => ⟨⟨0, 0, 0, 0⟩, 5⟩) (fun _ => ⟨⟨0, 0, 0, 0⟩, 5⟩) 0 0
    rfl rfl rfl rfl rfl

/-- C8: when the render state selects perspective-correct interpolation, the
interpolated value of an attribute equals the direct analytic perspective
interpolation of that attribute (exactly, over the exact-rational embedding
of the floats); when the render state selects linear (noperspective)
interpolation, the interpolated value equals the plain barycentric average of
the three vertex values. -/
theorem interp_attr_matches_analytic
    (a0 a1 a2 w0 w1 w2 b0 b1 b2 : ℚ) :
    interp_attr rstate_bcimode.perspective a0 a1 a2 w0 w1 w2 b0 b1 b2 =
      analytic_persp_interp a0 a1 a2 w0 w1 w2 b0 b1 b2 ∧
    interp_attr rstate_bcimode.noperspective a0 a1 a2 w0 w1 w2 b0 b1 b2 =
      barycentric_average a0 a1 a2 b0 b1 b2 := by
  constructor
  · show (b0 * (a0 / w0) + b1 * (a1 / w1) + b2 * (a2 / w2)) /
        (b0 / w0 + b1 / w1 + b2 / w2) =
      analytic_persp_interp a0 a1 a2 w0 w1 w2 b0 b1 b2
    rw [analytic_persp_interp]
    ring
  · rfl

end EmberGL
